import Mathlib

/-!
Shallow embedding of `ocs_ci/ocs/resources/mcg.py` (the `MCG` wrapper class
for the Multi Cloud Gateway S3 service) and of the polling utility it uses.

External collaborators (the S3 SDK, the cluster resource API, the CLI
subprocess, the administrative RPC endpoint) are modelled as explicit inputs:
their responses, error outcomes and response streams are parameters of the
embedded functions, while the control flow, parsing and error handling of the
Python methods themselves are translated faithfully.
-/

namespace MCGSpec

/-- Python-level exceptions that the embedded code can raise or propagate. -/
inductive PyError where
  /-- `botocore.client.ClientError`, carrying the protocol error code
  (for example a 404 not-found or a 403 access-denied). -/
  | clientError (code : String)
  /-- `ocs_ci.ocs.exceptions.CommandFailed`, carrying `repr(e)`. -/
  | commandFailed (reprStr : String)
  /-- `NameError`: a referenced local variable was never bound. -/
  | nameError
  /-- `IndexError`: sequence index out of range. -/
  | indexError
  /-- `TypeError`: for example `base64.b64decode(None)`. -/
  | typeError
  /-- `binascii.Error`: malformed base64 input. -/
  | binasciiError
  /-- any other exception type, identified by its class name. -/
  | otherExc (name : String)
  deriving Repr, DecidableEq

/-! ### Python string helpers

Python `s.split(sep)` keeps empty fields (a trailing separator yields a
final empty field); Python `s.split()` splits on whitespace runs and
discards empty fields.  Both are embedded by structural recursion over the
character list so that the kernel can evaluate them. -/

/-- Split a character list at every character satisfying `p`, keeping empty
fields (the semantics of Python `s.split(sep)` for a one-character `sep`). -/
def splitKeep (p : Char → Bool) : List Char → List (List Char)
  | [] => [[]]
  | c :: cs =>
    match splitKeep p cs with
    | [] => [[]]
    | h :: t => if p c then [] :: h :: t else (c :: h) :: t

/-- Python `s.split(sep)` for a one-character separator `sep`. -/
def pySplit (sep : Char) (s : String) : List String :=
  (splitKeep (fun c => c == sep) s.data).map String.mk

/-- Python `s.split()`: split on whitespace, discarding empty fields. -/
def pySplitWs (s : String) : List String :=
  ((splitKeep Char.isWhitespace s.data).map String.mk).filter (fun t => t ≠ "")

/-- Python list slice `l[1:-1]`: drop the first and the last element. -/
def sliceInterior {α : Type} (l : List α) : List α :=
  (l.drop 1).dropLast

/-! ### `MCG.cli_list_all_bucket_names` and `MCG.cli_verify_bucket_exists`

Python source:
```
obc_lst = run_mcg_cmd('obc list').split('\n')[1:-1]
return [row.split()[1] for row in obc_lst]
```
The CLI output is the explicit input `out`.  `row.split()[1]` raises
`IndexError` when a row has fewer than two whitespace-delimited tokens. -/

/-- `row.split()[1]` for one row: the second whitespace-delimited token,
or an `IndexError` when the row has fewer than two tokens. -/
def secondToken (row : String) : Except PyError String :=
  match (pySplitWs row).get? 1 with
  | some t => .ok t
  | none => .error .indexError

/-- Embedding of `MCG.cli_list_all_bucket_names`, with the raw tool output
as input: split on newlines, discard the first and last entries, and take
the second whitespace-delimited token of each remaining row. -/
def cli_list_all_bucket_names (out : String) : Except PyError (List String) :=
  (sliceInterior (pySplit '\n' out)).mapM secondToken

/-- Embedding of `MCG.cli_verify_bucket_exists`:
`return bucketname in self.cli_list_all_bucket_names()`. -/
def cli_verify_bucket_exists (out bucketname : String) : Except PyError Bool :=
  (cli_list_all_bucket_names out).map (fun l => l.contains bucketname)

/-! ### Substring test

Python `'NotFound' in repr(e)` is a substring containment test. -/

/-- `matchesAt pat l` is true when `pat` is an initial segment of `l`. -/
def matchesAt : List Char → List Char → Bool
  | [], _ => true
  | _ :: _, [] => false
  | a :: as, b :: bs => a == b && matchesAt as bs

/-- `hasSubstring l pat` is true when `pat` occurs contiguously in `l`. -/
def hasSubstring (l pat : List Char) : Bool :=
  match l with
  | [] => matchesAt pat []
  | _ :: t => matchesAt pat l || hasSubstring t pat

/-- Python `pat in s` for strings: substring containment. -/
def strContainsSub (s pat : String) : Bool :=
  hasSubstring s.data pat.data

/-! ### `MCG.s3_verify_bucket_exists`

Python source:
```
try:
    self.s3_resource.meta.client.head_bucket(Bucket=bucketname)
    return True
except ClientError:
    return False
```
The outcome of the external `head_bucket` probe is the input: `Except.ok ()`
when the probe succeeds, `Except.error e` when it raises exception `e`.
Note that the `except` clause catches every `ClientError`, whatever its
protocol error code. -/

/-- Embedding of `MCG.s3_verify_bucket_exists`, taking the outcome of the
`head_bucket` metadata probe as input. -/
def s3_verify_bucket_exists (head : Except PyError Unit) : Except PyError Bool :=
  match head with
  | .ok _ => .ok true
  | .error (.clientError _) => .ok false
  | .error e => .error e

/-! ### `MCG.oc_verify_bucket_exists`

Python source:
```
try:
    OCP(namespace=self.namespace, kind='obc').get(bucketname)
    return True
except CommandFailed as e:
    if 'NotFound' in repr(e):
        return False
    raise
```
The outcome of the external resource-API fetch is the input. -/

/-- Embedding of `MCG.oc_verify_bucket_exists`, taking the outcome of the
resource-API fetch of the named claim object as input. -/
def oc_verify_bucket_exists (fetch : Except PyError Unit) : Except PyError Bool :=
  match fetch with
  | .ok _ => .ok true
  | .error (.commandFailed r) =>
    if strContainsSub r "NotFound" then .ok false
    else .error (.commandFailed r)
  | .error e => .error e

/-! ### `MCG.check_data_reduction` and its `_check_reduction` closure

Python source of the closure (two separate `read_bucket` RPC round trips,
`size` taken from the first response, `size_reduced` from the second):
```
resp = requests.post(...read_bucket...)
bucket_data = resp.json().get('reply').get('data').get('size')
resp = requests.post(...read_bucket...)
bucket_data_reduced = resp.json().get('reply').get('data').get('size_reduced')
return bucket_data, bucket_data_reduced
```
The RPC endpoint is modelled as a response stream `rpc : Nat → BucketInfo`
indexed by call order, together with a cursor counting the calls issued so
far; each `requests.post` consumes the response at the cursor. -/

/-- The `reply.data` payload of one `bucket_api.read_bucket` RPC response. -/
structure BucketInfo where
  size : Int
  size_reduced : Int
  deriving Repr, DecidableEq

/-- Embedding of the `_check_reduction` closure: issues two `read_bucket`
calls (consuming two consecutive responses of the stream), pairs the `size`
of the first response with the `size_reduced` of the second, and returns the
pair together with the advanced cursor. -/
def checkReductionSample (rpc : Nat → BucketInfo) (cursor : Nat) :
    (Int × Int) × Nat :=
  let bucket_data := (rpc cursor).size
  let bucket_data_reduced := (rpc (cursor + 1)).size_reduced
  ((bucket_data, bucket_data_reduced), cursor + 2)

/-- The `for` loop over the sampler's yields: returns `some true` as soon as
one sample has `size - size_reduced > 80000000`, and `none` when the list of
samples yielded before the timeout is exhausted without returning. -/
def reductionLoop : List (Int × Int) → Option Bool
  | [] => none
  | (total_size, total_reduced) :: rest =>
    if total_size - total_reduced > 80000000 then some true
    else reductionLoop rest

/-- Embedding of the `try/except` of `MCG.check_data_reduction`, taking as
input the samples yielded by `TimeoutSampler` before it raised
`TimeoutExpiredError`.  The `except TimeoutExpiredError` handler logs
`total_size - total_reduced` before returning `False`; when the loop never
ran, those loop variables were never bound and the log line raises
`NameError` instead. -/
def check_data_reduction (samples : List (Int × Int)) : Except PyError Bool :=
  match reductionLoop samples with
  | some b => .ok b
  | none =>
    match samples with
    | [] => .error .nameError
    | _ :: _ => .ok false

/-! ### `MCG.__init__`

Python source (abridged):
```
results = OCP(kind='noobaa', namespace=...).get()
self.s3_endpoint = results.get('items')[0].get('status').get('services')
    .get('serviceS3').get('externalDNS')[0]
self.mgmt_endpoint = ...serviceMgmt...externalDNS[0]
self.region = self.s3_endpoint.split('.')[1]
creds_secret_name = ...accounts.admin.secretRef.name
creds_secret_obj = OCP(kind='secret', ...).get(creds_secret_name)
self.access_key_id = base64.b64decode(data.get('AWS_ACCESS_KEY_ID')).decode('utf-8')
... (AWS_SECRET_ACCESS_KEY, email, password likewise)
```
The cluster-resource API is an explicit input: `items` is the item list of
the `noobaa` resource query, `getSecret` is the secret fetch (which raises
`CommandFailed` when the secret is absent), `b64dec` is base64 decoding
followed by utf-8 decoding (`none` when either fails).  A `data` field that
is absent makes `dict.get` return `None` and `base64.b64decode(None)` raise
`TypeError`, so construction fails. -/

/-- The nested status fields of one item of the `noobaa` resource query. -/
structure NoobaaItem where
  serviceS3ExternalDNS : List String
  serviceMgmtExternalDNS : List String
  adminSecretName : String
  deriving Repr, DecidableEq

/-- The `data` mapping of the credentials secret: each field is `none` when
the key is absent from the secret. -/
structure SecretData where
  AWS_ACCESS_KEY_ID : Option String
  AWS_SECRET_ACCESS_KEY : Option String
  email : Option String
  password : Option String
  deriving Repr, DecidableEq

/-- The fields of a fully constructed `MCG` client. -/
structure MCG where
  namespace_ : String
  s3_endpoint : String
  mgmt_endpoint : String
  region : String
  access_key_id : String
  access_key : String
  noobaa_user : String
  noobaa_password : String
  deriving Repr, DecidableEq

/-- Python `l[i]`: the element at index `i`, or an `IndexError`. -/
def listIndex {α : Type} (l : List α) (i : Nat) : Except PyError α :=
  match l.get? i with
  | some a => .ok a
  | none => .error .indexError

/-- `base64.b64decode(field).decode('utf-8')` applied to `data.get(key)`:
`TypeError` when the key was absent (`None`), `binascii.Error` (or a decode
failure) when the value is malformed. -/
def b64decodeField (b64dec : String → Option String) :
    Option String → Except PyError String
  | none => .error .typeError
  | some s =>
    match b64dec s with
    | none => .error .binasciiError
    | some d => .ok d

/-- Embedding of `MCG.__init__`: resolves both endpoints, derives the
region from the S3 endpoint, fetches the referenced credentials secret and
decodes its four credential fields, in source order; any failure aborts
construction with that error and produces no client. -/
def MCG.construct (b64dec : String → Option String) (clusterNamespace : String)
    (items : List NoobaaItem) (getSecret : String → Except PyError SecretData) :
    Except PyError MCG := do
  let item0 ← listIndex items 0
  let s3_endpoint ← listIndex item0.serviceS3ExternalDNS 0
  let mgmt_endpoint ← listIndex item0.serviceMgmtExternalDNS 0
  let region ← listIndex (pySplit '.' s3_endpoint) 1
  let creds_secret_name := item0.adminSecretName
  let creds_secret_obj ← getSecret creds_secret_name
  let access_key_id ← b64decodeField b64dec creds_secret_obj.AWS_ACCESS_KEY_ID
  let access_key ← b64decodeField b64dec creds_secret_obj.AWS_SECRET_ACCESS_KEY
  let noobaa_user ← b64decodeField b64dec creds_secret_obj.email
  let noobaa_password ← b64decodeField b64dec creds_secret_obj.password
  return {
    namespace_ := clusterNamespace
    s3_endpoint := s3_endpoint
    mgmt_endpoint := mgmt_endpoint
    region := region
    access_key_id := access_key_id
    access_key := access_key
    noobaa_user := noobaa_user
    noobaa_password := noobaa_password
  }

/-! ### State-passing forms of the `MCG` operations

None of the methods below assigns to `self` in the Python source, so each
embedded operation returns its result together with the (unchanged) client
state; the pair makes the frame property explicit and provable. -/

/-- One bucket object of `s3_resource.buckets.all()`. -/
structure S3Bucket where
  name : String
  deriving Repr, DecidableEq

/-- One `obc` item: `spec.get('bucketName')`, `none` when the key is absent. -/
structure OBCItem where
  bucketName : Option String
  deriving Repr, DecidableEq

/-- Embedding of `MCG.s3_list_all_bucket_names`: the name of every bucket
returned by the S3 listing call (the external listing is the input). -/
def MCG.s3_list_all_bucket_names (m : MCG) (allBuckets : List S3Bucket) :
    List String × MCG :=
  (allBuckets.map S3Bucket.name, m)

/-- Embedding of `MCG.oc_list_all_bucket_names`: `spec.bucketName` of every
`obc` item in the namespace (the resource-API listing is the input). -/
def MCG.oc_list_all_bucket_names (m : MCG) (allObcs : List OBCItem) :
    List (Option String) × MCG :=
  (allObcs.map OBCItem.bucketName, m)

/-- State-passing form of `MCG.cli_list_all_bucket_names`. -/
def MCG.cli_list_all_bucket_names (m : MCG) (out : String) :
    Except PyError (List String) × MCG :=
  (MCGSpec.cli_list_all_bucket_names out, m)

/-- State-passing form of `MCG.s3_verify_bucket_exists`. -/
def MCG.s3_verify_bucket_exists (m : MCG) (head : Except PyError Unit) :
    Except PyError Bool × MCG :=
  (MCGSpec.s3_verify_bucket_exists head, m)

/-- State-passing form of `MCG.oc_verify_bucket_exists`. -/
def MCG.oc_verify_bucket_exists (m : MCG) (fetch : Except PyError Unit) :
    Except PyError Bool × MCG :=
  (MCGSpec.oc_verify_bucket_exists fetch, m)

/-- State-passing form of `MCG.cli_verify_bucket_exists`. -/
def MCG.cli_verify_bucket_exists (m : MCG) (out bucketname : String) :
    Except PyError Bool × MCG :=
  (MCGSpec.cli_verify_bucket_exists out bucketname, m)

/-- State-passing form of `MCG.check_data_reduction`. -/
def MCG.check_data_reduction (m : MCG) (samples : List (Int × Int)) :
    Except PyError Bool × MCG :=
  (MCGSpec.check_data_reduction samples, m)

/-! ### The Polling Verifier (`TimeoutSampler`)

`TimeoutSampler` lives in `ocs_ci/utility/utils.py`, which is not part of
this source tree; only its call site `TimeoutSampler(120, 5, _check_reduction)`
is.  It is therefore modelled from the spec. -/

/-- Modelled from the spec: the missing `TimeoutSampler` of
`ocs_ci.utility.utils`.  Per the spec, the Polling Verifier repeatedly
invokes the check function at cadence `interval`, with the first call
immediate or after the first interval (the exact choice is explicitly not
load-bearing), until elapsed time exceeds `timeout`, at which point it
signals the timeout condition.  An invocation therefore occurs at each
multiple of `interval` (counting from `0` or from `interval`) that does not
exceed `timeout`; this definition counts those invocations. -/
def samplerInvocations (timeout interval : Nat) (firstImmediate : Bool) : Nat :=
  if firstImmediate then timeout / interval + 1 else timeout / interval

/-! ### Auxiliary classifiers and concrete demonstration inputs -/

/-- True exactly for `botocore` `ClientError` exceptions. -/
def isClientError : PyError → Bool
  | .clientError _ => true
  | _ => false

/-- True exactly for `CommandFailed` exceptions. -/
def isCommandFailed : PyError → Bool
  | .commandFailed _ => true
  | _ => false

/-- A concrete `noobaa` resource item used to exercise construction. -/
def demoItem : NoobaaItem :=
  { serviceS3ExternalDNS := ["s3.reg.example"]
    serviceMgmtExternalDNS := ["mgmt.example"]
    adminSecretName := "creds" }

/-- A concrete credentials secret with all four data fields present. -/
def demoSecret : SecretData :=
  { AWS_ACCESS_KEY_ID := some "AA"
    AWS_SECRET_ACCESS_KEY := some "BB"
    email := some "CC"
    password := some "DD" }

/-- A concrete RPC response stream: the n-th `read_bucket` response reports
both `size` and `size_reduced` equal to `n`, so any two consecutive
responses disagree. -/
def demoRpc : Nat → BucketInfo := fun n => { size := (n : Int), size_reduced := (n : Int) }

/-! ## Helper lemmas -/

/-- An `Except` bind yields `ok` exactly when both stages do. -/
theorem exceptBind_ok {ε α β : Type} {x : Except ε α} {f : α → Except ε β} {b : β} :
    x >>= f = .ok b ↔ ∃ a, x = .ok a ∧ f a = .ok b := by
  cases x <;> simp [Bind.bind, Except.bind]

/-- `listIndex` succeeds exactly when the index is in range. -/
theorem listIndex_ok_iff {α : Type} {l : List α} {i : Nat} {a : α} :
    listIndex l i = .ok a ↔ l.get? i = some a := by
  unfold listIndex
  cases h : l.get? i <;> simp

/-- `b64decodeField` succeeds exactly when the field is present and decodes. -/
theorem b64decodeField_ok_iff {d : String → Option String} {o : Option String} {s : String} :
    b64decodeField d o = .ok s ↔ o.bind d = some s := by
  cases o with
  | none => simp [b64decodeField]
  | some v => cases hv : d v <;> simp [b64decodeField, hv]

/-- The reduction loop yields `some true` exactly when one of the samples
passes the threshold. -/
theorem reductionLoop_some_true_iff (samples : List (Int × Int)) :
    reductionLoop samples = some true ↔
      ∃ p ∈ samples, p.1 - p.2 > 80000000 := by
  induction samples with
  | nil => simp [reductionLoop]
  | cons p rest ih =>
    obtain ⟨s, r⟩ := p
    by_cases h : s - r > 80000000
    · simp only [reductionLoop, if_pos h]
      constructor
      · intro _
        exact ⟨(s, r), List.mem_cons_self _ _, h⟩
      · intro _
        trivial
    · simp only [reductionLoop, if_neg h]
      rw [ih]
      constructor
      · rintro ⟨p, hp, hgt⟩
        exact ⟨p, List.mem_cons_of_mem _ hp, hgt⟩
      · rintro ⟨p, hp, hgt⟩
        rcases List.mem_cons.mp hp with heq | hp2
        · rw [heq] at hgt
          exact absurd hgt h
        · exact ⟨p, hp2, hgt⟩

/-- The reduction loop falls through to the timeout handler exactly when no
sample passes the threshold. -/
theorem reductionLoop_none_iff (samples : List (Int × Int)) :
    reductionLoop samples = none ↔
      ∀ p ∈ samples, ¬ p.1 - p.2 > 80000000 := by
  induction samples with
  | nil => simp [reductionLoop]
  | cons p rest ih =>
    obtain ⟨s, r⟩ := p
    by_cases h : s - r > 80000000
    · simp only [reductionLoop, if_pos h]
      constructor
      · intro hcontra
        exact Option.noConfusion hcontra
      · intro hall
        exact absurd h (hall (s, r) (List.mem_cons_self _ _))
    · simp only [reductionLoop, if_neg h]
      rw [ih]
      constructor
      · intro hall q hq
        rcases List.mem_cons.mp hq with heq | hq2
        · rw [heq]
          exact h
        · exact hall q hq2
      · intro hall q hq
        exact hall q (List.mem_cons_of_mem _ hq)

/-! ## Claim theorems -/

/-- C1 counterexample: on the scenario output
`"NAME  BUCKET\n--- ---\nfoo  mybucket-1\nbar  mybucket-2\n"`, the CLI
listing does not yield `["mybucket-1", "mybucket-2"]` as the claim states:
splitting on newlines discards only the header line and the trailing empty
field, so the separator row survives and contributes its second token. -/
theorem cli_list_scenario_not_claimed :
    cli_list_all_bucket_names
        "NAME  BUCKET\n--- ---\nfoo  mybucket-1\nbar  mybucket-2\n" ≠
      Except.ok ["mybucket-1", "mybucket-2"] := by
  intro h
  rw [show cli_list_all_bucket_names
        "NAME  BUCKET\n--- ---\nfoo  mybucket-1\nbar  mybucket-2\n" =
      Except.ok ["---", "mybucket-1", "mybucket-2"] from rfl] at h
  simp at h

/-- C1 (amended): parsing the scenario output
`"NAME  BUCKET\n--- ---\nfoo  mybucket-1\nbar  mybucket-2\n"` — splitting on
newlines, discarding the first and last entries of the split (the header
line and the empty field after the trailing newline), and taking the second
whitespace-delimited token of each remaining row — yields exactly
`["---", "mybucket-1", "mybucket-2"]`: the separator row is retained. -/
theorem cli_list_scenario_actual :
    cli_list_all_bucket_names
        "NAME  BUCKET\n--- ---\nfoo  mybucket-1\nbar  mybucket-2\n" =
      Except.ok ["---", "mybucket-1", "mybucket-2"] := rfl

/-- C2 counterexample: a protocol error that is not a not-found error — here
a `ClientError` with code 403 — is converted to `false` by
`s3_verify_bucket_exists` instead of being propagated, because the `except`
clause catches every `ClientError`. -/
theorem s3_verify_forbidden_not_propagated :
    s3_verify_bucket_exists (Except.error (PyError.clientError "403")) =
      Except.ok false := rfl

/-- C2 (amended): `s3_verify_bucket_exists` returns `false` exactly when the
metadata-only existence probe fails with any protocol (`ClientError`) error,
whatever its code; only non-`ClientError` exceptions are propagated, and a
successful probe yields `true`. -/
theorem s3_verify_client_error_spec :
    ∀ (head : Except PyError Unit),
      (s3_verify_bucket_exists head = Except.ok false ↔
        ∃ c, head = Except.error (PyError.clientError c)) ∧
      (∀ e, isClientError e = false → head = Except.error e →
        s3_verify_bucket_exists head = Except.error e) ∧
      (head = Except.ok () → s3_verify_bucket_exists head = Except.ok true) := by
  intro head
  refine ⟨?_, ?_, ?_⟩
  · cases head with
    | ok u => simp [s3_verify_bucket_exists]
    | error e => cases e <;> simp [s3_verify_bucket_exists]
  · intro e he hhead
    subst hhead
    cases e <;> simp_all [s3_verify_bucket_exists, isClientError]
  · intro hhead
    subst hhead
    rfl

/-- C2 witness: a non-protocol exception is propagated unchanged, and a
probe failing with a 404 protocol error yields `false`. -/
theorem s3_verify_client_error_spec_witness :
    s3_verify_bucket_exists (Except.error (PyError.otherExc "ConnectionError")) =
        Except.error (PyError.otherExc "ConnectionError") ∧
      s3_verify_bucket_exists (Except.error (PyError.clientError "404")) =
        Except.ok false :=
  ⟨(s3_verify_client_error_spec
      (Except.error (PyError.otherExc "ConnectionError"))).2.1
      (PyError.otherExc "ConnectionError") rfl rfl,
    (s3_verify_client_error_spec
      (Except.error (PyError.clientError "404"))).1.mpr ⟨"404", rfl⟩⟩

/-- C3 counterexample: when the Polling Verifier yields no sample at all
before the timeout, no sample passes the threshold, yet
`check_data_reduction` does not return `false` as the claim states — the
timeout handler raises a `NameError` instead. -/
theorem check_data_reduction_empty_not_false :
    check_data_reduction [] ≠ Except.ok false := by
  intro h
  exact Except.noConfusion h

/-- C3 (amended): provided the Polling Verifier yielded at least one
`(size, size_reduced)` sample before the 120-second timeout,
`check_data_reduction` returns `true` if and only if some polled sample
satisfies `size - size_reduced > 80000000`, and returns `false` when no
such sample occurs before the timeout expires.  (With zero samples the
timeout handler raises a `NameError` instead of returning `false`.) -/
theorem check_data_reduction_nonempty_spec :
    ∀ (samples : List (Int × Int)), samples ≠ [] →
      (check_data_reduction samples = Except.ok true ↔
        ∃ p ∈ samples, p.1 - p.2 > 80000000) ∧
      ((∀ p ∈ samples, ¬ p.1 - p.2 > 80000000) →
        check_data_reduction samples = Except.ok false) := by
  intro samples hne
  constructor
  · constructor
    · intro h
      rw [← reductionLoop_some_true_iff]
      unfold check_data_reduction at h
      cases hl : reductionLoop samples with
      | none =>
        rw [hl] at h
        cases samples with
        | nil => simp at h
        | cons p rest => simp at h
      | some b =>
        rw [hl] at h
        simp at h
        rw [h]
    · intro h
      have hl := (reductionLoop_some_true_iff samples).mpr h
      unfold check_data_reduction
      rw [hl]
  · intro hall
    have hl := (reductionLoop_none_iff samples).mpr hall
    unfold check_data_reduction
    rw [hl]
    cases samples with
    | nil => exact absurd rfl hne
    | cons p rest => rfl

/-- C3 witness: with the single insufficient sample `(0, 0)` polled before
the timeout, the check returns `false`; with the single sample
`(100000001, 0)` it returns `true`. -/
theorem check_data_reduction_nonempty_spec_witness :
    check_data_reduction [((0 : Int), (0 : Int))] = Except.ok false ∧
      check_data_reduction [((100000001 : Int), (0 : Int))] = Except.ok true :=
  ⟨(check_data_reduction_nonempty_spec [(0, 0)] (by simp)).2 (by decide),
    (check_data_reduction_nonempty_spec [(100000001, 0)] (by simp)).1.mpr
      ⟨(100000001, 0), by simp, by decide⟩⟩

/-- C10: `check_data_reduction` returns `false` on timeout only when at
least one sample was yielded before the timeout; when the timeout error
arrives before any sample, the handler references the never-bound loop
variables and raises a `NameError` instead of returning `false`. -/
theorem check_data_reduction_empty_name_error :
    (∀ samples : List (Int × Int),
        check_data_reduction samples = Except.ok false → samples ≠ []) ∧
      check_data_reduction [] = Except.error PyError.nameError := by
  constructor
  · intro samples h hnil
    subst hnil
    exact Except.noConfusion h
  · rfl

/-- C10 witness: the sample list `[(0, 0)]` is accepted by the first part
of the theorem, because the check really does return `false` on it. -/
theorem check_data_reduction_empty_name_error_witness :
    [((0 : Int), (0 : Int))] ≠ ([] : List (Int × Int)) :=
  check_data_reduction_empty_name_error.1 [(0, 0)] rfl

/-- C4: `oc_verify_bucket_exists` returns `true` when the resource-API
fetch of the named claim object succeeds, returns `false` when the fetch
fails with a `CommandFailed` error whose representation contains
`"NotFound"`, propagates a `CommandFailed` error without that substring,
and propagates every error of any other kind. -/
theorem oc_verify_spec :
    ∀ (fetch : Except PyError Unit),
      (fetch = Except.ok () → oc_verify_bucket_exists fetch = Except.ok true) ∧
      (∀ r, fetch = Except.error (PyError.commandFailed r) →
        strContainsSub r "NotFound" = true →
        oc_verify_bucket_exists fetch = Except.ok false) ∧
      (∀ r, fetch = Except.error (PyError.commandFailed r) →
        strContainsSub r "NotFound" = false →
        oc_verify_bucket_exists fetch =
          Except.error (PyError.commandFailed r)) ∧
      (∀ e, isCommandFailed e = false → fetch = Except.error e →
        oc_verify_bucket_exists fetch = Except.error e) := by
  intro fetch
  refine ⟨?_, ?_, ?_, ?_⟩
  · intro hf
    subst hf
    rfl
  · intro r hf hsub
    subst hf
    simp [oc_verify_bucket_exists, hsub]
  · intro r hf hsub
    subst hf
    simp [oc_verify_bucket_exists, hsub]
  · intro e he hf
    subst hf
    cases e <;> simp_all [oc_verify_bucket_exists, isCommandFailed]

/-- C4 witness: the `bucketExists("ghost")` scenario — a resource-API fetch
failing with a `CommandFailed` whose representation contains `"NotFound"`
yields `false` rather than a propagated error, while a `CommandFailed`
without that substring is propagated. -/
theorem oc_verify_spec_witness :
    oc_verify_bucket_exists
        (Except.error (PyError.commandFailed
          "CommandFailed: obc.noobaa.io \x22ghost\x22 NotFound")) =
        Except.ok false ∧
      oc_verify_bucket_exists
        (Except.error (PyError.commandFailed "CommandFailed: timed out")) =
        Except.error (PyError.commandFailed "CommandFailed: timed out") :=
  ⟨(oc_verify_spec _).2.1 "CommandFailed: obc.noobaa.io \x22ghost\x22 NotFound"
      rfl rfl,
    (oc_verify_spec _).2.2.1 "CommandFailed: timed out" rfl rfl⟩

/-- C6: on the same tool output, `cli_verify_bucket_exists` returns `true`
if and only if the bucket name is a member of the list returned by
`cli_list_all_bucket_names`. -/
theorem cli_verify_member_spec :
    ∀ (out bucketname : String) (l : List String),
      cli_list_all_bucket_names out = Except.ok l →
      (cli_verify_bucket_exists out bucketname = Except.ok true ↔
        bucketname ∈ l) := by
  intro out bucketname l h
  unfold cli_verify_bucket_exists
  rw [h]
  simp [Except.map]

/-- C6 witness: on the scenario output, the verify-by-CLI check agrees with
membership in the parsed listing for the bucket name `"mybucket-1"`. -/
theorem cli_verify_member_spec_witness :
    cli_verify_bucket_exists
        "NAME  BUCKET\n--- ---\nfoo  mybucket-1\nbar  mybucket-2\n"
        "mybucket-1" = Except.ok true :=
  (cli_verify_member_spec
      "NAME  BUCKET\n--- ---\nfoo  mybucket-1\nbar  mybucket-2\n"
      "mybucket-1" ["---", "mybucket-1", "mybucket-2"]
      rfl).mpr (by simp)

/-- C5: whenever `MCG.construct` produces a client, the fetched credentials
secret had all four required data fields (`AWS_ACCESS_KEY_ID`,
`AWS_SECRET_ACCESS_KEY`, `email`, `password`) present, and every field of
the client is exactly the value resolved from the construction inputs
(endpoints from the resource item, region from the S3 endpoint, credentials
decoded from the secret); contrapositively, a secret missing any required
field makes construction fail with an error and no client is produced. -/
theorem construct_success_spec :
    ∀ (b64dec : String → Option String) (clusterNamespace : String)
      (items : List NoobaaItem)
      (getSecret : String → Except PyError SecretData) (m : MCG),
      MCG.construct b64dec clusterNamespace items getSecret = Except.ok m →
      ∃ (item : NoobaaItem) (secret : SecretData),
        items.get? 0 = some item ∧
        getSecret item.adminSecretName = Except.ok secret ∧
        secret.AWS_ACCESS_KEY_ID.isSome ∧
        secret.AWS_SECRET_ACCESS_KEY.isSome ∧
        secret.email.isSome ∧
        secret.password.isSome ∧
        m.namespace_ = clusterNamespace ∧
        item.serviceS3ExternalDNS.get? 0 = some m.s3_endpoint ∧
        item.serviceMgmtExternalDNS.get? 0 = some m.mgmt_endpoint ∧
        (pySplit '.' m.s3_endpoint).get? 1 = some m.region ∧
        secret.AWS_ACCESS_KEY_ID.bind b64dec = some m.access_key_id ∧
        secret.AWS_SECRET_ACCESS_KEY.bind b64dec = some m.access_key ∧
        secret.email.bind b64dec = some m.noobaa_user ∧
        secret.password.bind b64dec = some m.noobaa_password := by
  intro b64dec ns items getSecret m h
  unfold MCG.construct at h
  obtain ⟨item0, h0, h⟩ := exceptBind_ok.mp h
  obtain ⟨s3ep, h1, h⟩ := exceptBind_ok.mp h
  obtain ⟨mgmtep, h2, h⟩ := exceptBind_ok.mp h
  obtain ⟨region, h3, h⟩ := exceptBind_ok.mp h
  obtain ⟨secret, h4, h⟩ := exceptBind_ok.mp h
  obtain ⟨akid, h5, h⟩ := exceptBind_ok.mp h
  obtain ⟨ak, h6, h⟩ := exceptBind_ok.mp h
  obtain ⟨user, h7, h⟩ := exceptBind_ok.mp h
  obtain ⟨pass, h8, h⟩ := exceptBind_ok.mp h
  have hm : m =
      { namespace_ := ns, s3_endpoint := s3ep, mgmt_endpoint := mgmtep,
        region := region, access_key_id := akid, access_key := ak,
        noobaa_user := user, noobaa_password := pass } :=
    (Except.ok.inj h).symm
  subst hm
  have e5 := b64decodeField_ok_iff.mp h5
  have e6 := b64decodeField_ok_iff.mp h6
  have e7 := b64decodeField_ok_iff.mp h7
  have e8 := b64decodeField_ok_iff.mp h8
  refine ⟨item0, secret, listIndex_ok_iff.mp h0, h4, ?_, ?_, ?_, ?_, rfl,
    listIndex_ok_iff.mp h1, listIndex_ok_iff.mp h2, listIndex_ok_iff.mp h3,
    e5, e6, e7, e8⟩
  · cases hf : secret.AWS_ACCESS_KEY_ID with
    | none => rw [hf] at e5; exact Option.noConfusion e5
    | some v => rfl
  · cases hf : secret.AWS_SECRET_ACCESS_KEY with
    | none => rw [hf] at e6; exact Option.noConfusion e6
    | some v => rfl
  · cases hf : secret.email with
    | none => rw [hf] at e7; exact Option.noConfusion e7
    | some v => rfl
  · cases hf : secret.password with
    | none => rw [hf] at e8; exact Option.noConfusion e8
    | some v => rfl

/-- C5 witness: a concrete construction with all four secret data fields
present succeeds, and every client field equals the value resolved from the
inputs during that construction. -/
theorem construct_success_spec_witness :
    ∃ (item : NoobaaItem) (secret : SecretData),
      [demoItem].get? 0 = some item ∧
      (Except.ok demoSecret : Except PyError SecretData) = Except.ok secret ∧
      secret.AWS_ACCESS_KEY_ID.isSome ∧
      secret.AWS_SECRET_ACCESS_KEY.isSome ∧
      secret.email.isSome ∧
      secret.password.isSome ∧
      ("ns" : String) = "ns" ∧
      item.serviceS3ExternalDNS.get? 0 = some "s3.reg.example" ∧
      item.serviceMgmtExternalDNS.get? 0 = some "mgmt.example" ∧
      (pySplit '.' "s3.reg.example").get? 1 = some "reg" ∧
      secret.AWS_ACCESS_KEY_ID.bind some = some "AA" ∧
      secret.AWS_SECRET_ACCESS_KEY.bind some = some "BB" ∧
      secret.email.bind some = some "CC" ∧
      secret.password.bind some = some "DD" :=
  construct_success_spec some "ns" [demoItem] (fun _ => Except.ok demoSecret)
    { namespace_ := "ns", s3_endpoint := "s3.reg.example",
      mgmt_endpoint := "mgmt.example", region := "reg",
      access_key_id := "AA", access_key := "BB",
      noobaa_user := "CC", noobaa_password := "DD" } rfl

/-- C7: each poll iteration of the reduction check issues two separate
`read_bucket` RPC calls — consuming two consecutive responses of the
stream and advancing the call cursor by two — taking `size` from the first
response and `size_reduced` from the second; on the stream whose n-th
response reports both fields equal to `n`, the resulting pair `(0, 1)`
matches no single response, so the pair genuinely comes from two distinct
samples rather than one. -/
theorem check_reduction_two_calls :
    (∀ (rpc : Nat → BucketInfo) (cursor : Nat),
        checkReductionSample rpc cursor =
          (((rpc cursor).size, (rpc (cursor + 1)).size_reduced),
            cursor + 2)) ∧
      ∀ i : Nat,
        (checkReductionSample demoRpc 0).1 ≠
          ((demoRpc i).size, (demoRpc i).size_reduced) := by
  constructor
  · intro rpc cursor
    rfl
  · intro i h
    have h1 : (0 : Int) = (i : Int) := congrArg Prod.fst h
    have h2 : (1 : Int) = (i : Int) := congrArg Prod.snd h
    omega

/-- C7 witness: the pair sampled at cursor 0 of the demonstration stream is
not the `(size, size_reduced)` of its own first response. -/
theorem check_reduction_two_calls_witness :
    (checkReductionSample demoRpc 0).1 ≠
      ((demoRpc 0).size, (demoRpc 0).size_reduced) :=
  check_reduction_two_calls.2 0

/-- C8: none of the client operations — the three listing operations, the
three existence checks, or the data-reduction check — modifies any field of
the client state: each returns the state it was given, so endpoints,
region, credentials, admin user and password are immutable after
construction. -/
theorem mcg_ops_preserve_state :
    ∀ (m : MCG) (allBuckets : List S3Bucket) (allObcs : List OBCItem)
      (out out2 bucketname : String) (head fetch : Except PyError Unit)
      (samples : List (Int × Int)),
      (m.s3_list_all_bucket_names allBuckets).2 = m ∧
      (m.oc_list_all_bucket_names allObcs).2 = m ∧
      (m.cli_list_all_bucket_names out).2 = m ∧
      (m.s3_verify_bucket_exists head).2 = m ∧
      (m.oc_verify_bucket_exists fetch).2 = m ∧
      (m.cli_verify_bucket_exists out2 bucketname).2 = m ∧
      (m.check_data_reduction samples).2 = m := by
  intro m allBuckets allObcs out out2 bucketname head fetch samples
  exact ⟨rfl, rfl, rfl, rfl, rfl, rfl, rfl⟩

/-- C9: for every timeout `T` and positive interval `I`, the Polling
Verifier (modelled from the spec, with the first check either immediate or
after the first interval) performs at least `⌊T/I⌋` and at most
`⌈T/I⌉ + 1` check invocations before signaling the timeout condition,
whatever the check function returns. -/
theorem sampler_invocation_bounds :
    ∀ (timeout interval : Nat) (firstImmediate : Bool), 0 < interval →
      timeout / interval ≤
          samplerInvocations timeout interval firstImmediate ∧
        samplerInvocations timeout interval firstImmediate ≤
          (timeout + interval - 1) / interval + 1 := by
  intro T I fi hI
  have hmono : T / I ≤ (T + I - 1) / I := Nat.div_le_div_right (by omega)
  unfold samplerInvocations
  cases fi <;> simp <;> omega

/-- C9 witness: at the call site `TimeoutSampler(120, 5, _check_reduction)`
the invocation count lies between `⌊120/5⌋ = 24` and `⌈120/5⌉ + 1 = 25`. -/
theorem sampler_invocation_bounds_witness :
    120 / 5 ≤ samplerInvocations 120 5 true ∧
      samplerInvocations 120 5 true ≤ (120 + 5 - 1) / 5 + 1 :=
  sampler_invocation_bounds 120 5 true (by decide)

end MCGSpec
